import Mathlib

/-!
Verification of the conversation-memory and query-orchestration layer of the
marketing agent (`src/agent.py`, class `MarketingAgent`).

Modelling conventions:
* `self.memory_store` is a dict from user id to a LangChain
  `ConversationBufferWindowMemory`.  The only part of that library object the
  source ever touches is `chat_memory.messages`, a plain unbounded list of
  messages; the `k=10` window of `ConversationBufferWindowMemory` is applied
  only inside `load_memory_variables`, which the source never calls.  We
  therefore embed a memory as the plain message list, and the store as a
  function from user id to an optional message list (`none` = key absent).
* The external LangChain agent executor (`self.agent_executor.invoke`) is the
  opaque reasoning service: a parameter of type
  `String → List Message → Except String String`; `Except.error` models a
  raised exception, `Except.ok` the `result["output"]` text.
* `json.dumps(context)` is opaque serialization: contexts are modelled by the
  serialized string.  Timestamps (`datetime.now()`) and the
  `intermediate_steps` trace are omitted: no claim mentions them.
* Python float arithmetic in the scoring function is modelled over `ℚ`; all
  quantities involved are small decimal fractions.
-/

/-- Role of one stored conversation message (`HumanMessage` vs `AIMessage`). -/
inductive Role where
  | user
  | agent
  deriving DecidableEq, Repr

/-- One stored message of a user's `chat_memory.messages` list. -/
structure Message where
  role : Role
  content : String
  deriving DecidableEq, Repr

/-- The `self.memory_store` dict: user id to stored message list, `none` when
the key is absent. -/
abbrev MemoryStore := String → Option (List Message)

/-- The store of a freshly constructed agent: `self.memory_store = {}`. -/
def emptyStore : MemoryStore := fun _ => none

/-- Messages observed for a user: the stored list, `[]` when absent. -/
def messagesOf (store : MemoryStore) (uid : String) : List Message :=
  (store uid).getD []

/-- `MarketingAgent._get_user_memory` (src/agent.py lines 546-554): create an
empty memory on first use, otherwise return the store unchanged. -/
def getOrCreate (store : MemoryStore) (uid : String) : MemoryStore :=
  match store uid with
  | some _ => store
  | none => fun u => if u = uid then some [] else store u

/-- Update of one user's message list inside the store. -/
def setMessages (store : MemoryStore) (uid : String) (msgs : List Message) :
    MemoryStore :=
  fun u => if u = uid then some msgs else store u

/-- `MarketingAgent.clear_user_memory` (lines 616-619): delete the user's
entry; idempotent. -/
def clear_user_memory (store : MemoryStore) (uid : String) : MemoryStore :=
  fun u => if u = uid then none else store u

/-- The dict returned by `process_query` (timestamp and intermediate steps
omitted, see module comment). -/
structure QueryResult where
  response : String
  confidence : ℚ
  error : Option String
  user_id : String
  deriving DecidableEq, Repr

/-- Context injection of `process_query` (line 564):
`query = f"Context: \x7bjson.dumps(context)\x7d\n\nQuery: \x7bquery\x7d"` when a
context is supplied. -/
def augment (context : Option String) (query : String) : String :=
  match context with
  | none => query
  | some ctx => "Context: " ++ ctx ++ "\n\nQuery: " ++ query

/-- `MarketingAgent.process_query` (lines 556-595).  On success the
context-augmented query and the output are appended to the user's messages and
a result with constant confidence 0.85 is returned; on an exception from the
reasoning service the store (with the possibly freshly created empty memory)
is returned unchanged together with an error result of confidence 0. -/
def process_query (llm : String → List Message → Except String String)
    (store : MemoryStore) (user_id query : String) (context : Option String) :
    MemoryStore × QueryResult :=
  let store1 := getOrCreate store user_id
  let history := messagesOf store1 user_id
  let fullQuery := augment context query
  match llm fullQuery history with
  | Except.ok output =>
      (setMessages store1 user_id
        (history ++ [{ role := Role.user, content := fullQuery },
                     { role := Role.agent, content := output }]),
       { response := output, confidence := 0.85, error := none,
         user_id := user_id })
  | Except.error e =>
      (store1,
       { response := "I encountered an error processing your marketing query: "
           ++ e,
         confidence := 0, error := some e, user_id := user_id })

/-- One entry of the list returned by `get_user_conversation_history`
(timestamp omitted). -/
structure HistoryPair where
  user_message : String
  agent_response : String
  deriving DecidableEq, Repr

/-- Python slice `xs[-n:]`: for `n = 0` the slice index `-0` equals `0`, so
the WHOLE list is returned; for `n > 0` the last `min n (length xs)`
elements. -/
def pySliceLast (n : Nat) (xs : List Message) : List Message :=
  if n = 0 then xs else xs.drop (xs.length - n)

/-- The pairing loop of `get_user_conversation_history` (lines 605-612):
`for i in range(0, len(messages), 2): if i + 1 < len(messages): append pair`;
a trailing unpaired message is dropped. -/
def pairUp : List Message → List HistoryPair
  | u :: a :: rest =>
      { user_message := u.content, agent_response := a.content } :: pairUp rest
  | _ => []

/-- `MarketingAgent.get_user_conversation_history` (lines 597-614):
`messages[-limit*2:]` then pairing. -/
def get_user_conversation_history (store : MemoryStore) (user_id : String)
    (limit : Nat) : List HistoryPair :=
  match store user_id with
  | none => []
  | some messages => pairUp (pySliceLast (limit * 2) messages)

/-- One call of `process_query`, bundling the oracle behaviour of the external
reasoning service for that call. -/
structure Call where
  llm : String → List Message → Except String String
  uid : String
  query : String
  context : Option String

/-- Sequential execution of a list of `process_query` calls, threading the
memory store. -/
def runCalls : List Call → MemoryStore → MemoryStore
  | [], store => store
  | c :: rest, store =>
      runCalls rest (process_query c.llm store c.uid c.query c.context).1

/-! ### Helper lemmas about the store operations -/

theorem messagesOf_getOrCreate (store : MemoryStore) (uid u : String) :
    messagesOf (getOrCreate store uid) u = messagesOf store u := by
  unfold getOrCreate messagesOf
  cases h : store uid with
  | some _ => rfl
  | none =>
      by_cases hu : u = uid
      · subst hu; simp [h]
      · simp [hu]

theorem messagesOf_setMessages (store : MemoryStore) (uid : String)
    (msgs : List Message) :
    messagesOf (setMessages store uid msgs) uid = msgs := by
  simp [messagesOf, setMessages]

theorem messagesOf_setMessages_ne (store : MemoryStore) (uid u : String)
    (msgs : List Message) (h : u ≠ uid) :
    messagesOf (setMessages store uid msgs) u = messagesOf store u := by
  simp [messagesOf, setMessages, h]

theorem process_query_store_ok (llm : String → List Message → Except String String)
    (store : MemoryStore) (uid query : String) (context : Option String)
    (out : String)
    (h : llm (augment context query) (messagesOf (getOrCreate store uid) uid) =
      Except.ok out) :
    (process_query llm store uid query context).1 =
      setMessages (getOrCreate store uid) uid
        (messagesOf (getOrCreate store uid) uid ++
          [{ role := Role.user, content := augment context query },
           { role := Role.agent, content := out }]) := by
  simp only [process_query, h]

theorem process_query_store_error (llm : String → List Message → Except String String)
    (store : MemoryStore) (uid query : String) (context : Option String)
    (e : String)
    (h : llm (augment context query) (messagesOf (getOrCreate store uid) uid) =
      Except.error e) :
    (process_query llm store uid query context).1 = getOrCreate store uid := by
  simp only [process_query, h]

theorem process_query_result_error (llm : String → List Message → Except String String)
    (store : MemoryStore) (uid query : String) (context : Option String)
    (e : String)
    (h : llm (augment context query) (messagesOf (getOrCreate store uid) uid) =
      Except.error e) :
    (process_query llm store uid query context).2 =
      { response := "I encountered an error processing your marketing query: "
          ++ e,
        confidence := 0, error := some e, user_id := uid } := by
  simp only [process_query, h]

/-- On a successful reasoning call, the persisted messages of the queried user
are the old ones followed by exactly one user turn carrying the
context-augmented query and one agent turn carrying the output. -/
theorem process_query_append (llm : String → List Message → Except String String)
    (store : MemoryStore) (uid query : String) (context : Option String)
    (out : String)
    (h : llm (augment context query) (messagesOf store uid) = Except.ok out) :
    messagesOf (process_query llm store uid query context).1 uid =
      messagesOf store uid ++
        [{ role := Role.user, content := augment context query },
         { role := Role.agent, content := out }] := by
  have hg := messagesOf_getOrCreate store uid uid
  rw [process_query_store_ok llm store uid query context out (by rw [hg]; exact h)]
  rw [messagesOf_setMessages, hg]

/-! ### Alternation of stored roles -/

/-- A message list strictly alternates user, agent, user, agent, … and pairs
up completely. -/
def alternates : List Message → Bool
  | [] => true
  | { role := Role.user, content := _ } ::
      { role := Role.agent, content := _ } :: rest => alternates rest
  | _ => false

theorem alternates_append (su sa : String) :
    ∀ l : List Message, alternates l = true →
      alternates (l ++ [{ role := Role.user, content := su },
                        { role := Role.agent, content := sa }]) = true
  | [], _ => rfl
  | { role := Role.user, content := _ } ::
      { role := Role.agent, content := _ } :: rest, h =>
      alternates_append su sa rest h
  | [{ role := Role.user, content := _ }], h => nomatch h
  | [{ role := Role.agent, content := _ }], h => nomatch h
  | { role := Role.user, content := _ } ::
      { role := Role.user, content := _ } :: _, h => nomatch h
  | { role := Role.agent, content := _ } :: _ :: _, h => nomatch h

theorem alternates_process_query
    (llm : String → List Message → Except String String) (store : MemoryStore)
    (uid query : String) (context : Option String)
    (h : ∀ u, alternates (messagesOf store u) = true) :
    ∀ u, alternates (messagesOf (process_query llm store uid query context).1 u)
      = true := by
  intro u
  cases hr : llm (augment context query)
      (messagesOf (getOrCreate store uid) uid) with
  | ok output =>
      rw [process_query_store_ok llm store uid query context output hr]
      by_cases hu : u = uid
      · subst hu
        rw [messagesOf_setMessages, messagesOf_getOrCreate]
        exact alternates_append _ _ _ (h u)
      · rw [messagesOf_setMessages_ne _ _ _ _ hu, messagesOf_getOrCreate]
        exact h u
  | error e =>
      rw [process_query_store_error llm store uid query context e hr,
        messagesOf_getOrCreate]
      exact h u

theorem alternates_runCalls :
    ∀ (calls : List Call) (store : MemoryStore),
      (∀ u, alternates (messagesOf store u) = true) →
      ∀ u, alternates (messagesOf (runCalls calls store) u) = true
  | [], _, h => h
  | c :: rest, store, h =>
      alternates_runCalls rest _
        (alternates_process_query c.llm store c.uid c.query c.context h)

/-! ### Concrete oracles and inputs used in closed theorems -/

/-- Reasoning-service oracle that always succeeds with output `"resp"`. -/
def llmResp : String → List Message → Except String String :=
  fun _ _ => Except.ok "resp"

/-- Reasoning-service oracle that always raises (message `"boom"`). -/
def llmBoom : String → List Message → Except String String :=
  fun _ _ => Except.error "boom"

/-- A successful `process_query` call for user `"u"` with query `"q"`. -/
def okCall : Call :=
  { llm := fun _ _ => Except.ok "response", uid := "u", query := "q",
    context := none }

/-! ### Claim theorems: memory manager and orchestrator -/

/-- C1 (code_bug evidence): after 11 successful exchanges for user `"u"`,
`get_user_conversation_history("u", 1000)` returns 11 pairs, not at most 10.
The source never truncates `chat_memory.messages`: the `k=10` window of
`ConversationBufferWindowMemory` lives only in `load_memory_variables`, which
the source never calls, so no eviction ever happens. -/
theorem history_exceeds_window_at_eleven :
    (get_user_conversation_history
        (runCalls (List.replicate 11 okCall) emptyStore) "u" 1000).length = 11 ∧
    ¬ (get_user_conversation_history
        (runCalls (List.replicate 11 okCall) emptyStore) "u" 1000).length ≤ 10
    := by
  constructor
  · decide
  · decide

/-- C2 (counterexample): for a successful call with a supplied context, the
persisted user turn is the context-augmented text, which differs from the
original query `"hello"`. -/
theorem persisted_turn_not_original_query :
    (messagesOf (process_query llmResp emptyStore "u" "hello"
        (some "\x7b\"a\": 1\x7d")).1 "u").map Message.content =
      ["Context: \x7b\"a\": 1\x7d\n\nQuery: hello", "resp"] ∧
    ("Context: \x7b\"a\": 1\x7d\n\nQuery: hello" : String) ≠ "hello" := by
  constructor
  · decide
  · decide

/-- C2 (amended): for every successful `process_query` call, the user turn
persisted into the history is exactly the context-augmented text that was sent
to the reasoning service (for calls without context this coincides with the
original query). -/
theorem persisted_turn_is_augmented_query
    (llm : String → List Message → Except String String) (store : MemoryStore)
    (uid query : String) (context : Option String) (out : String)
    (h : llm (augment context query) (messagesOf store uid) = Except.ok out) :
    messagesOf (process_query llm store uid query context).1 uid =
      messagesOf store uid ++
        [{ role := Role.user, content := augment context query },
         { role := Role.agent, content := out }] :=
  process_query_append llm store uid query context out h

theorem persisted_turn_is_augmented_query_witness :
    (llmResp (augment (some "\x7b\"a\": 1\x7d") "hello")
        (messagesOf emptyStore "u") = Except.ok "resp") ∧
    messagesOf (process_query llmResp emptyStore "u" "hello"
        (some "\x7b\"a\": 1\x7d")).1 "u" =
      messagesOf emptyStore "u" ++
        [{ role := Role.user,
           content := augment (some "\x7b\"a\": 1\x7d") "hello" },
         { role := Role.agent, content := "resp" }] :=
  ⟨rfl, persisted_turn_is_augmented_query llmResp emptyStore "u" "hello"
    (some "\x7b\"a\": 1\x7d") "resp" rfl⟩

/-- C3: when the reasoning service raises, the stored history of the user is
unchanged, and the (always returned, never thrown) result carries confidence
0, the error description, and the user-facing error response text. -/
theorem process_query_failure_preserves_history
    (llm : String → List Message → Except String String) (store : MemoryStore)
    (uid query : String) (context : Option String) (e : String)
    (h : llm (augment context query) (messagesOf store uid) = Except.error e) :
    messagesOf (process_query llm store uid query context).1 uid =
      messagesOf store uid ∧
    (process_query llm store uid query context).2.confidence = 0 ∧
    (process_query llm store uid query context).2.error = some e ∧
    (process_query llm store uid query context).2.response =
      "I encountered an error processing your marketing query: " ++ e := by
  have hg := messagesOf_getOrCreate store uid uid
  have h' : llm (augment context query)
      (messagesOf (getOrCreate store uid) uid) = Except.error e := by
    rw [hg]; exact h
  refine ⟨?_, ?_, ?_, ?_⟩
  · rw [process_query_store_error llm store uid query context e h', hg]
  · rw [process_query_result_error llm store uid query context e h']
  · rw [process_query_result_error llm store uid query context e h']
  · rw [process_query_result_error llm store uid query context e h']

theorem process_query_failure_preserves_history_witness :
    (llmBoom (augment none "q") (messagesOf emptyStore "u") =
      Except.error "boom") ∧
    (messagesOf (process_query llmBoom emptyStore "u" "q" none).1 "u" =
        messagesOf emptyStore "u" ∧
      (process_query llmBoom emptyStore "u" "q" none).2.confidence = 0 ∧
      (process_query llmBoom emptyStore "u" "q" none).2.error = some "boom" ∧
      (process_query llmBoom emptyStore "u" "q" none).2.response =
        "I encountered an error processing your marketing query: " ++ "boom") :=
  ⟨rfl,
   process_query_failure_preserves_history llmBoom emptyStore "u" "q" none
     "boom" rfl⟩

/-- C4: over every sequence of `process_query` calls from a fresh store, every
user's stored message sequence strictly alternates user, agent, … starting
with a user turn; and each successful call appends exactly one user turn
immediately followed by exactly one agent turn. -/
theorem history_alternates_user_agent :
    (∀ (calls : List Call) (uid : String),
       alternates (messagesOf (runCalls calls emptyStore) uid) = true) ∧
    (∀ (llm : String → List Message → Except String String)
       (store : MemoryStore) (uid query : String) (context : Option String)
       (out : String),
       llm (augment context query) (messagesOf store uid) = Except.ok out →
       messagesOf (process_query llm store uid query context).1 uid =
         messagesOf store uid ++
           [{ role := Role.user, content := augment context query },
            { role := Role.agent, content := out }]) := by
  constructor
  · intro calls uid
    exact alternates_runCalls calls emptyStore (fun _ => rfl) uid
  · intro llm store uid query context out h
    exact process_query_append llm store uid query context out h

theorem history_alternates_user_agent_witness :
    alternates (messagesOf (runCalls [okCall] emptyStore) "u") = true ∧
    ((llmResp (augment none "hi") (messagesOf emptyStore "v") =
        Except.ok "resp") ∧
      messagesOf (process_query llmResp emptyStore "v" "hi" none).1 "v" =
        messagesOf emptyStore "v" ++
          [{ role := Role.user, content := augment none "hi" },
           { role := Role.agent, content := "resp" }]) :=
  ⟨history_alternates_user_agent.1 [okCall] "u",
   ⟨rfl,
    history_alternates_user_agent.2 llmResp emptyStore "v" "hi" none "resp"
      rfl⟩⟩

/-- C9: for a known user with stored messages, limit `0` returns ALL stored
pairs (the Python slice `messages[-0:]` is the whole list), in particular a
non-empty result when at least one exchange is stored. -/
theorem history_limit_zero_returns_all (store : MemoryStore) (uid : String)
    (msgs : List Message) (h : store uid = some msgs)
    (hne : pairUp msgs ≠ []) :
    get_user_conversation_history store uid 0 = pairUp msgs ∧
    get_user_conversation_history store uid 0 ≠ [] := by
  have h1 : get_user_conversation_history store uid 0 = pairUp msgs := by
    unfold get_user_conversation_history
    rw [h]
    rfl
  exact ⟨h1, by rw [h1]; exact hne⟩

/-- Store holding one completed exchange for user `"alice"`. -/
def storeC9 : MemoryStore :=
  fun u =>
    if u = "alice" then
      some [{ role := Role.user, content := "hi" },
            { role := Role.agent, content := "hello" }]
    else none

theorem history_limit_zero_returns_all_witness :
    (storeC9 "alice" = some [{ role := Role.user, content := "hi" },
                             { role := Role.agent, content := "hello" }] ∧
      pairUp [{ role := Role.user, content := "hi" },
              { role := Role.agent, content := "hello" }] ≠ []) ∧
    (get_user_conversation_history storeC9 "alice" 0 =
        pairUp [{ role := Role.user, content := "hi" },
                { role := Role.agent, content := "hello" }] ∧
      get_user_conversation_history storeC9 "alice" 0 ≠ []) :=
  ⟨⟨rfl, by decide⟩,
   history_limit_zero_returns_all storeC9 "alice" _ rfl (by decide)⟩

/-! ### String helpers mirroring the Python primitives -/

/-- ASCII lower-casing of one character, as `str.lower` acts on the ASCII
inputs occurring here. -/
def charLower (c : Char) : Char :=
  if 65 ≤ c.toNat ∧ c.toNat ≤ 90 then Char.ofNat (c.toNat + 32) else c

/-- Python `s.lower()`. -/
def strLower (s : String) : String := String.mk (s.toList.map charLower)

/-- Whitespace test of Python `str.strip` (restricted to the ASCII whitespace
occurring in the modelled inputs). -/
def isWs (c : Char) : Bool :=
  c = ' ' ∨ c = '\t' ∨ c = '\n' ∨ c = '\r'

/-- Python `s.strip()`. -/
def strTrim (s : String) : String :=
  String.mk (((s.toList.dropWhile isWs).reverse.dropWhile isWs).reverse)

/-- Test whether `pat` occurs at the head of `l`. -/
def startsList : List Char → List Char → Bool
  | [], _ => true
  | _ :: _, [] => false
  | p :: ps, c :: cs => p == c && startsList ps cs

/-- Python substring test `pat in s`. -/
def subStr (pat s : String) : Bool :=
  (List.range (s.toList.length + 1)).any
    (fun i => startsList pat.toList (s.toList.drop i))

/-- Python `s.split(":", 1)`: `none` when no colon occurs (Python then yields
a single part and the source reports a format error). -/
def splitColon : List Char → Option (List Char × List Char)
  | [] => none
  | c :: cs =>
      if c = ':' then some ([], cs)
      else
        match splitColon cs with
        | some (a, b) => some (c :: a, b)
        | none => none

/-! ### Platform compliance rules and checker -/

/-- One platform's entry of the `_load_platform_compliance` table (lines
196-229).  `workarounds` and `best_practices` are optional because only some
platforms carry those keys, and the source tests key presence. -/
structure PlatformRules where
  allowed : Bool
  restrictions : List String
  workarounds : Option (List String)
  best_practices : Option (List String)
  creative_strategies : List String
  deriving DecidableEq, Repr

/-- The static `platform_rules` table of `_load_platform_compliance`. -/
def platform_rules (platform : String) : Option PlatformRules :=
  if platform = "facebook" then
    some { allowed := false,
           restrictions := ["no_cannabis_content", "no_cbd_ads",
                            "no_hemp_mention"],
           workarounds := some ["wellness_angle", "lifestyle_focus",
                                "educational_content"],
           best_practices := none,
           creative_strategies := ["plant_based_wellness", "natural_remedies",
                                   "health_and_wellness"] }
  else if platform = "instagram" then
    some { allowed := false,
           restrictions := ["no_cannabis_imagery", "no_product_promotion",
                            "no_dispensary_ads"],
           workarounds := some ["brand_awareness", "educational_posts",
                                "community_building"],
           best_practices := none,
           creative_strategies := ["lifestyle_branding", "wellness_education",
                                   "brand_storytelling"] }
  else if platform = "google_ads" then
    some { allowed := false,
           restrictions := ["no_cannabis_keywords", "no_cbd_products",
                            "no_dispensary_promotion"],
           workarounds := some ["wellness_keywords", "educational_content",
                                "brand_terms"],
           best_practices := none,
           creative_strategies := ["health_and_wellness", "natural_products",
                                   "educational_focus"] }
  else if platform = "weedmaps" then
    some { allowed := true,
           restrictions := ["age_verification", "licensed_operators_only",
                            "compliant_imagery"],
           workarounds := none,
           best_practices := some ["high_quality_photos",
                                   "detailed_descriptions",
                                   "customer_reviews"],
           creative_strategies := ["product_showcase", "strain_education",
                                   "deals_and_promotions"] }
  else if platform = "leafly" then
    some { allowed := true,
           restrictions := ["verified_dispensaries", "accurate_product_info",
                            "professional_content"],
           workarounds := none,
           best_practices := some ["educational_content", "strain_reviews",
                                   "dispensary_profiles"],
           creative_strategies := ["expert_content", "strain_spotlights",
                                   "educational_series"] }
  else none

/-- The structured content of the JSON object built by
`_check_platform_compliance` (the always-empty `content_analysis` dict is
omitted). -/
structure ComplianceResult where
  platform : String
  allowed : Bool
  violations : List String
  recommendations : List String
  creative_strategies : List String
  deriving DecidableEq, Repr

/-- The per-restriction violation dispatch of `_check_platform_compliance`
(lines 256-263). -/
def violationFor (content_lower : String) (r : String) : Option String :=
  if r == "no_cannabis_content" &&
      (["cannabis", "marijuana", "weed", "thc"].any
        (fun w => subStr w content_lower)) then
    some "Contains cannabis-related content"
  else if r == "no_cbd_ads" && subStr "cbd" content_lower then
    some "Contains CBD references"
  else if r == "no_hemp_mention" && subStr "hemp" content_lower then
    some "Contains hemp references"
  else none

/-- `MarketingAgent._check_platform_compliance` (lines 231-280); the two
early-return error strings are modelled as `Except.error`, the JSON result as
the structured `ComplianceResult`. -/
def check_platform_compliance (platform_and_content : String) :
    Except String ComplianceResult :=
  match splitColon platform_and_content.toList with
  | none => Except.error "Please format as 'platform:content'"
  | some (rawPlatform, rawContent) =>
      let platform := strLower (strTrim (String.mk rawPlatform))
      let content := strTrim (String.mk rawContent)
      match platform_rules platform with
      | none =>
          Except.error ("Platform '" ++ platform ++ "' not recognized." ++
            " Available: ['facebook', 'instagram', 'google_ads'," ++
            " 'weedmaps', 'leafly']")
      | some rules =>
          let content_lower := strLower content
          let violations := rules.restrictions.filterMap
            (violationFor content_lower)
          let recommendations :=
            match rules.workarounds with
            | some ws =>
                if violations.isEmpty then []
                else ws.map (fun w => "Try " ++ w ++ " approach")
            | none => []
          Except.ok
            { platform := platform, allowed := rules.allowed,
              violations := violations, recommendations := recommendations,
              creative_strategies := rules.creative_strategies }

/-- C5: the compliance check on
`"facebook:our cannabis dispensary has the best thc products"` reports
`allowed = false` and a non-empty violations list containing the
cannabis-content violation. -/
theorem compliance_facebook_cannabis_violation :
    ∃ r, check_platform_compliance
        "facebook:our cannabis dispensary has the best thc products" =
        Except.ok r ∧
      r.allowed = false ∧ r.violations ≠ [] ∧
      "Contains cannabis-related content" ∈ r.violations :=
  ⟨{ platform := "facebook", allowed := false,
     violations := ["Contains cannabis-related content"],
     recommendations := ["Try wellness_angle approach",
                         "Try lifestyle_focus approach",
                         "Try educational_content approach"],
     creative_strategies := ["plant_based_wellness", "natural_remedies",
                             "health_and_wellness"] },
   by rfl, by decide, by decide, by decide⟩

/-! ### N8N workflow simulator -/

/-- One node entry of a workflow bundle: node name and action text. -/
structure WorkflowNode where
  node : String
  action : String
  deriving DecidableEq, Repr

/-- The JSON object built by `_simulate_n8n_workflow` (lines 406-494). -/
structure WorkflowBundle where
  workflow_name : String
  trigger : String
  nodes : List WorkflowNode
  expected_outcomes : List String
  automation_benefits : List String
  deriving DecidableEq, Repr

/-- `MarketingAgent._simulate_n8n_workflow`: substring dispatch on the
lower-cased description; `"content"`+`"approval"` selects the
content-approval bundle, `"campaign"`+`"optimization"` the
campaign-optimization bundle, anything else the generic fallback (whose
`automation_benefits` keeps the empty initial value). -/
def simulate_n8n_workflow (workflow_description : String) : WorkflowBundle :=
  let description_lower := strLower workflow_description
  if subStr "content" description_lower && subStr "approval" description_lower
  then
    { workflow_name := "Content Approval & Distribution",
      trigger := "Webhook - Content Upload",
      nodes := [{ node := "HTTP Request", action := "Receive content upload" },
                { node := "OCR", action := "Extract text from images" },
                { node := "GPT-4 Analysis", action := "Compliance check" },
                { node := "Conditional",
                  action := "Route based on compliance" },
                { node := "Email", action := "Send approval notification" },
                { node := "Social Media Posting",
                  action := "Auto-publish if approved" }],
      expected_outcomes := ["Automated compliance checking",
                            "Reduced manual review time",
                            "Consistent brand messaging",
                            "Platform-specific content optimization"],
      automation_benefits := ["85% reduction in review time",
                              "100% compliance checking",
                              "Multi-platform distribution",
                              "Audit trail for all content"] }
  else if subStr "campaign" description_lower &&
      subStr "optimization" description_lower then
    { workflow_name := "Campaign Performance Optimization",
      trigger := "Schedule - Daily at 9 AM",
      nodes := [{ node := "API Call", action := "Fetch campaign metrics" },
                { node := "Data Analysis",
                  action := "Calculate performance KPIs" },
                { node := "Conditional",
                  action := "Check performance thresholds" },
                { node := "Budget Adjustment",
                  action := "Auto-adjust spend allocation" },
                { node := "Slack Notification",
                  action := "Alert team of changes" },
                { node := "Report Generation",
                  action := "Create performance summary" }],
      expected_outcomes := ["Automatic budget optimization",
                            "Real-time performance monitoring",
                            "Proactive campaign adjustments",
                            "Data-driven decision making"],
      automation_benefits := ["24/7 campaign monitoring",
                              "Immediate response to performance changes",
                              "Optimized ad spend allocation",
                              "Improved ROI tracking"] }
  else
    { workflow_name := "Generic Marketing Automation",
      trigger := "Custom trigger based on requirements",
      nodes := [{ node := "Data Input", action := "Collect marketing data" },
                { node := "Processing",
                  action := "Analyze and transform data" },
                { node := "Decision Logic", action := "Apply business rules" },
                { node := "Action Execution",
                  action := "Perform marketing actions" },
                { node := "Monitoring",
                  action := "Track results and performance" }],
      expected_outcomes := ["Streamlined marketing processes",
                            "Consistent execution",
                            "Data-driven insights",
                            "Scalable operations"],
      automation_benefits := [] }

/-- C6 (counterexample): on input `"optimize campaign spend"` the simulator
returns the generic fallback bundle, not the campaign-optimization bundle:
the word `"optimization"` does not occur as a substring of the input. -/
theorem workflow_optimize_spend_returns_generic :
    (simulate_n8n_workflow "optimize campaign spend").workflow_name =
      "Generic Marketing Automation" ∧
    ("Generic Marketing Automation" : String) ≠
      "Campaign Performance Optimization" := by
  constructor
  · decide
  · decide

/-- C6 (amended): the workflow simulator applied to the input
`"optimize campaign spend"` returns the generic fallback bundle (the whole
bundle, `workflow_name` `"Generic Marketing Automation"`), not the
campaign-optimization bundle. -/
theorem workflow_dispatch_amended :
    simulate_n8n_workflow "optimize campaign spend" =
      { workflow_name := "Generic Marketing Automation",
        trigger := "Custom trigger based on requirements",
        nodes := [{ node := "Data Input", action := "Collect marketing data" },
                  { node := "Processing",
                    action := "Analyze and transform data" },
                  { node := "Decision Logic",
                    action := "Apply business rules" },
                  { node := "Action Execution",
                    action := "Perform marketing actions" },
                  { node := "Monitoring",
                    action := "Track results and performance" }],
        expected_outcomes := ["Streamlined marketing processes",
                              "Consistent execution",
                              "Data-driven insights",
                              "Scalable operations"],
        automation_benefits := [] } ∧
    (simulate_n8n_workflow "optimize campaign spend").workflow_name ≠
      "Campaign Performance Optimization" := by
  constructor
  · decide
  · decide

/-! ### Baseline evaluation -/

/-- One record of the loaded baseline question set (`baseline.json`); `id` and
`expected_answer` are read with `.get` and may be absent. -/
structure BaselineQuestion where
  id : Option String
  question : String
  expected_answer : Option String
  keywords : List String
  deriving DecidableEq, Repr

/-- The fixed domain-term list of `_evaluate_baseline_response` (line 681). -/
def marketing_terms : List String :=
  ["platform", "compliance", "strategy", "campaign", "audience", "creative"]

/-- The dict returned by `_evaluate_baseline_response` on its success path. -/
structure BaselineEvaluation where
  passed : Bool
  confidence : ℚ
  keyword_matches : Nat
  total_keywords : Nat
  marketing_relevance : ℚ
  response_length : Nat
  deriving DecidableEq, Repr

/-- `MarketingAgent._evaluate_baseline_response` (lines 671-702), with the
float arithmetic carried over `ℚ`.  The `except` branch of the source is
unreachable in the model (all record fields are total). -/
def evaluate_baseline_response (q : BaselineQuestion) (response : String) :
    BaselineEvaluation :=
  let response_lower := strLower response
  let keyword_matches :=
    q.keywords.countP (fun kw => subStr (strLower kw) response_lower)
  let keyword_score : ℚ :=
    if q.keywords.isEmpty then 0.5
    else (keyword_matches : ℚ) / (q.keywords.length : ℚ)
  let marketing_score : ℚ :=
    (marketing_terms.countP (fun term => subStr term response_lower) : ℚ) /
      (marketing_terms.length : ℚ)
  let length_score : ℚ := min ((response.length : ℚ) / 200) 1
  let overall_score :=
    keyword_score * 0.4 + marketing_score * 0.4 + length_score * 0.2
  { passed := decide ((0.6 : ℚ) ≤ overall_score),
    confidence := overall_score,
    keyword_matches := keyword_matches,
    total_keywords := q.keywords.length,
    marketing_relevance := marketing_score,
    response_length := response.length }

/-- C7: a response containing every keyword of a question with a non-empty
keyword list (case-insensitively), at least one of the six domain terms, and
at least 200 characters, scores overall at least 0.6 and passes. -/
theorem baseline_evaluation_passes (q : BaselineQuestion) (response : String)
    (h1 : q.keywords ≠ [])
    (h2 : ∀ kw ∈ q.keywords, subStr (strLower kw) (strLower response) = true)
    (_h3 : ∃ term ∈ marketing_terms, subStr term (strLower response) = true)
    (h4 : 200 ≤ response.length) :
    (0.6 : ℚ) ≤ (evaluate_baseline_response q response).confidence ∧
    (evaluate_baseline_response q response).passed = true := by
  have hkm : q.keywords.countP
      (fun kw => subStr (strLower kw) (strLower response)) =
      q.keywords.length := List.countP_eq_length.mpr h2
  have hlen : q.keywords.length ≠ 0 := by
    intro h0
    exact h1 (List.length_eq_zero.mp h0)
  have hlenQ : (q.keywords.length : ℚ) ≠ 0 := Nat.cast_ne_zero.mpr hlen
  have hks : ((q.keywords.countP
      (fun kw => subStr (strLower kw) (strLower response)) : ℚ) /
      (q.keywords.length : ℚ)) = 1 := by
    rw [hkm]
    exact div_self hlenQ
  have hempty : q.keywords.isEmpty = false := by
    cases hq : q.keywords with
    | nil => exact absurd hq h1
    | cons a l => rfl
  have hms : (0 : ℚ) ≤
      (marketing_terms.countP (fun term => subStr term (strLower response)) : ℚ) /
        (marketing_terms.length : ℚ) := by
    positivity
  have hls : min ((response.length : ℚ) / 200) 1 = 1 := by
    have : (1 : ℚ) ≤ (response.length : ℚ) / 200 := by
      rw [le_div_iff₀ (by norm_num : (0 : ℚ) < 200)]
      have := (Nat.cast_le (α := ℚ)).mpr h4
      push_cast at this ⊢
      linarith
    exact min_eq_right this
  have hoverall : (0.6 : ℚ) ≤
      (evaluate_baseline_response q response).confidence := by
    show (0.6 : ℚ) ≤
      (if q.keywords.isEmpty then (0.5 : ℚ)
        else (q.keywords.countP
          (fun kw => subStr (strLower kw) (strLower response)) : ℚ) /
          (q.keywords.length : ℚ)) * 0.4 +
      ((marketing_terms.countP (fun term => subStr term (strLower response)) : ℚ) /
        (marketing_terms.length : ℚ)) * 0.4 +
      (min ((response.length : ℚ) / 200) 1) * 0.2
    rw [hempty, if_neg (by simp), hks, hls]
    have := hms
    nlinarith [hms]
  refine ⟨hoverall, ?_⟩
  show decide ((0.6 : ℚ) ≤ (evaluate_baseline_response q response).confidence)
    = true
  exact decide_eq_true hoverall

/-- Concrete question used to witness the scoring theorem. -/
def questionW : BaselineQuestion :=
  { id := some "q1", question := "Which platform should a dispensary use?",
    expected_answer := none, keywords := ["platform"] }

/-- Concrete 239-character response containing the keyword `"platform"` and a
domain term. -/
def responseW : String :=
  "A strong cannabis marketing plan starts with platform compliance. " ++
  "Review every advertising policy, adapt the creative assets and the " ++
  "audience targeting for each channel, and measure campaign results " ++
  "against the budget every single week."

set_option maxRecDepth 100000 in
theorem baseline_evaluation_passes_witness :
    (questionW.keywords ≠ [] ∧ 200 ≤ responseW.length) ∧
    ((0.6 : ℚ) ≤ (evaluate_baseline_response questionW responseW).confidence ∧
      (evaluate_baseline_response questionW responseW).passed = true) :=
  ⟨⟨by decide, by decide⟩,
   baseline_evaluation_passes questionW responseW (by decide) (by decide)
     ⟨"platform", by decide, by decide⟩ (by decide)⟩

/-! ### Baseline test runner -/

/-- The serialized test context `json.dumps(\x7b"test_mode": True\x7d)` passed by
`run_baseline_test` to every `process_query` call. -/
def testContext : String := "\x7b\"test_mode\": true\x7d"

/-- One entry of the `results` list built by `run_baseline_test`. -/
structure ResultEntry where
  question_id : String
  question : String
  expected : String
  actual : String
  passed : Bool
  confidence : ℚ
  deriving DecidableEq, Repr

/-- The question selection of `run_baseline_test` (lines 626-628): filter by
id when a `question_id` is passed, otherwise all questions. -/
def selectQuestions (questions : List BaselineQuestion)
    (question_id : Option String) : List BaselineQuestion :=
  match question_id with
  | some qid => questions.filter (fun q => decide (q.id = some qid))
  | none => questions

/-- The per-question loop of `run_baseline_test` (lines 630-658), threading
the memory store through the sequential `process_query` calls.  The model's
`process_query` and `evaluate_baseline_response` are total, so the
per-question `except` branch of the source is unreachable here. -/
def baselineLoop (llm : String → List Message → Except String String) :
    List BaselineQuestion → MemoryStore → MemoryStore × List ResultEntry
  | [], store => (store, [])
  | q :: rest, store =>
      let pr := process_query llm store "baseline_test" q.question
        (some testContext)
      let ev := evaluate_baseline_response q pr.2.response
      let lr := baselineLoop llm rest pr.1
      (lr.1,
       { question_id := q.id.getD "unknown", question := q.question,
         expected := q.expected_answer.getD "", actual := pr.2.response,
         passed := ev.passed, confidence := ev.confidence } :: lr.2)

/-- The report dict returned by `run_baseline_test`: either the
`\x7b"error": ...\x7d` shape (empty question set) or the full report shape
(`agent_type` and `timestamp` omitted). -/
inductive BaselineReport where
  | error (msg : String)
  | report (total_questions : Nat) (passed : Nat) (average_confidence : ℚ)
      (results : List ResultEntry)
  deriving DecidableEq, Repr

/-- `MarketingAgent.run_baseline_test` (lines 621-669): empty set short
circuit, id filter, cap to the first 5 selected questions, sequential
processing under the reserved `"baseline_test"` identity, and the final
`clear_user_memory("baseline_test")`. -/
def run_baseline_test (llm : String → List Message → Except String String)
    (questions : List BaselineQuestion) (question_id : Option String)
    (store : MemoryStore) : MemoryStore × BaselineReport :=
  match questions with
  | [] => (store, BaselineReport.error "No baseline questions available")
  | q0 :: rest =>
      let selected := selectQuestions (q0 :: rest) question_id
      let lr := baselineLoop llm (selected.take 5) store
      (clear_user_memory lr.1 "baseline_test",
       BaselineReport.report lr.2.length
         (lr.2.countP (fun r => r.passed))
         (if lr.2.isEmpty then 0
          else (lr.2.map (fun r => r.confidence)).sum / (lr.2.length : ℚ))
         lr.2)

theorem baselineLoop_length (llm : String → List Message → Except String String) :
    ∀ (qs : List BaselineQuestion) (store : MemoryStore),
      (baselineLoop llm qs store).2.length = qs.length
  | [], _ => rfl
  | q :: rest, store => by
      simp only [baselineLoop, List.length_cons]
      rw [baselineLoop_length llm rest]

theorem get_history_absent (store : MemoryStore) (uid : String) (limit : Nat)
    (h : store uid = none) :
    get_user_conversation_history store uid limit = [] := by
  unfold get_user_conversation_history
  rw [h]

/-- C8: for every non-empty loaded question set, `run_baseline_test` reports
on at most 5 (the first 5 selected) questions, and afterwards the reserved
`"baseline_test"` identity has no stored history. -/
theorem run_baseline_caps_and_clears
    (llm : String → List Message → Except String String)
    (questions : List BaselineQuestion) (question_id : Option String)
    (store : MemoryStore) (h : questions ≠ []) :
    (∃ passedCount avg results,
      (run_baseline_test llm questions question_id store).2 =
        BaselineReport.report results.length passedCount avg results ∧
      results.length ≤ 5) ∧
    (run_baseline_test llm questions question_id store).1 "baseline_test" =
      none ∧
    get_user_conversation_history
      (run_baseline_test llm questions question_id store).1 "baseline_test" 10
      = [] := by
  cases questions with
  | nil => exact absurd rfl h
  | cons q0 rest =>
      have hnone : (run_baseline_test llm (q0 :: rest) question_id store).1
          "baseline_test" = none := by
        show clear_user_memory
          (baselineLoop llm
            ((selectQuestions (q0 :: rest) question_id).take 5) store).1
          "baseline_test" "baseline_test" = none
        simp [clear_user_memory]
      refine ⟨⟨_, _,
        (baselineLoop llm
          ((selectQuestions (q0 :: rest) question_id).take 5) store).2,
        rfl, ?_⟩, hnone, get_history_absent _ _ _ hnone⟩
      rw [baselineLoop_length]
      rw [List.length_take]
      exact min_le_left _ _

/-- A baseline question with the given id, used for concrete runs. -/
def bq (n : String) : BaselineQuestion :=
  { id := some n, question := "Which platform should I use?",
    expected_answer := none, keywords := ["platform"] }

/-- A 7-item baseline question set. -/
def questions7 : List BaselineQuestion :=
  [bq "q1", bq "q2", bq "q3", bq "q4", bq "q5", bq "q6", bq "q7"]

theorem run_baseline_caps_and_clears_witness :
    (questions7 ≠ []) ∧
    ((∃ passedCount avg results,
        (run_baseline_test llmResp questions7 none emptyStore).2 =
          BaselineReport.report results.length passedCount avg results ∧
        results.length ≤ 5) ∧
      (run_baseline_test llmResp questions7 none emptyStore).1
        "baseline_test" = none ∧
      get_user_conversation_history
        (run_baseline_test llmResp questions7 none emptyStore).1
        "baseline_test" 10 = []) :=
  ⟨by decide,
   run_baseline_caps_and_clears llmResp questions7 none emptyStore
     (by decide)⟩

/-- C10: an empty loaded question set yields only the error object (store
untouched); a non-empty set whose ids all differ from the requested id yields
the empty report with zero counts and zero mean confidence. -/
theorem run_baseline_degenerate_reports
    (llm : String → List Message → Except String String) (store : MemoryStore)
    (questions : List BaselineQuestion) (qid : String)
    (hne : questions ≠ []) (h : ∀ q ∈ questions, ¬ q.id = some qid) :
    run_baseline_test llm [] (some qid) store =
      (store, BaselineReport.error "No baseline questions available") ∧
    (run_baseline_test llm questions (some qid) store).2 =
      BaselineReport.report 0 0 0 [] := by
  refine ⟨rfl, ?_⟩
  cases questions with
  | nil => exact absurd rfl hne
  | cons q0 rest =>
      have hsel : selectQuestions (q0 :: rest) (some qid) = [] := by
        simp only [selectQuestions]
        rw [List.filter_eq_nil_iff]
        intro a ha
        simpa using h a ha
      show (BaselineReport.report
        (baselineLoop llm
          ((selectQuestions (q0 :: rest) (some qid)).take 5) store).2.length
        _ _ _) = BaselineReport.report 0 0 0 []
      rw [hsel]
      rfl

/-- A question whose id is `"a"`. -/
def questionA : BaselineQuestion :=
  { id := some "a", question := "Q", expected_answer := none, keywords := [] }

theorem run_baseline_degenerate_reports_witness :
    ([questionA] ≠ [] ∧ ∀ q ∈ [questionA], ¬ q.id = some "b") ∧
    (run_baseline_test llmResp [] (some "b") emptyStore =
        (emptyStore, BaselineReport.error "No baseline questions available") ∧
      (run_baseline_test llmResp [questionA] (some "b") emptyStore).2 =
        BaselineReport.report 0 0 0 []) :=
  ⟨⟨by decide, by decide⟩,
   run_baseline_degenerate_reports llmResp emptyStore [questionA] "b"
     (by decide) (by decide)⟩
